import Mathlib

namespace HealthAuth

/- Shallow embedding of src/app/routes/auth.py.

   Python dicts keyed by strings are modelled as association lists,
   datetimes as integer seconds (timedelta(days=1) = 86400 s,
   timedelta(hours=1) = 3600 s), Python floats as exact rationals, and
   the cryptographic primitives (pbkdf2_hmac composed with hex encoding,
   the legacy sha256 hexdigest, secrets token generation) as function
   parameters, since the specification treats the key-derivation
   function as an abstract deterministic function.  Each call to
   datetime.utcnow() inside a handler body is a separate clock-reading
   parameter, listed in source order. -/

/-- Python dict read d.get(k) / d[k], on the association-list model. -/
def lookup {α : Type} : List (String × α) → String → Option α
  | [], _ => none
  | (k, v) :: rest, key => if k = key then some v else lookup rest key

/-- Python membership test `k in d`. -/
def containsKey {α : Type} (m : List (String × α)) (key : String) : Bool :=
  (lookup m key).isSome

/-- Python dict assignment d[k] = v: replaces the binding if the key is
    present, otherwise appends it (dicts preserve insertion order). -/
def dset {α : Type} : List (String × α) → String → α → List (String × α)
  | [], key, v => [(key, v)]
  | (k, w) :: rest, key, v =>
      if k = key then (key, v) :: rest else (k, w) :: dset rest key v

/-- Python `del d[k]`.  A dict has at most one binding per key; on the
    association-list model we remove every binding for the key, which
    agrees with `del` on any list that actually represents a dict. -/
def dremove {α : Type} : List (String × α) → String → List (String × α)
  | [], _ => []
  | (k, v) :: rest, key =>
      if k = key then dremove rest key else (k, v) :: dremove rest key

/-- Python str.lower(): per-character lowercasing (ASCII-faithful). -/
def pyLower (s : String) : String :=
  ⟨s.data.map Char.toLower⟩

/-- Line 83-87, hash_password: returns f"{salt}:{hex(pbkdf2(...))}".
    `kdf salt password` models hex(pbkdf2_hmac(sha256, password, salt,
    100000)); the salt is a parameter (in the source it is a fresh
    random hex string, so it contains no colon). -/
def hash_password (kdf : List Char → List Char → List Char)
    (salt password : List Char) : List Char :=
  salt ++ ':' :: kdf salt password

/-- Python containment test `":" in s`. -/
def hasColon : List Char → Bool
  | [] => false
  | c :: rest => if c = ':' then true else hasColon rest

/-- Python password_hash.split(":", 1): splits at the first colon,
    returning none when the string has no colon. -/
def splitFirstColon : List Char → Option (List Char × List Char)
  | [] => none
  | c :: rest =>
      if c = ':' then some ([], rest)
      else
        match splitFirstColon rest with
        | none => none
        | some (a, b) => some (c :: a, b)

/-- Lines 89-100, verify_password: legacy branch when the stored digest
    has no colon (compare the legacy unsalted hash), otherwise re-derive
    with the embedded salt and compare.  The try/except that maps any
    exception to False has no counterpart here because no modelled
    branch raises. -/
def verify_password (kdf : List Char → List Char → List Char)
    (legacy : List Char → List Char) (password stored : List Char) : Bool :=
  if hasColon stored = false then
    legacy password == stored
  else
    match splitFirstColon stored with
    | none => false
    | some (salt, hex) => kdf salt password == hex

/-- Lines 40-50, ResetPasswordRequest.validate_new_password: length at
    least 6, at least one uppercase letter, one lowercase letter and one
    digit, checked in that order; the first failing check raises. -/
def validate_new_password (v : String) : Except String String :=
  if v.length < 6 then .error "Password must be at least 6 characters long"
  else if v.data.any Char.isUpper = false then
    .error "Password must contain at least one uppercase letter"
  else if v.data.any Char.isLower = false then
    .error "Password must contain at least one lowercase letter"
  else if v.data.any Char.isDigit = false then
    .error "Password must contain at least one number"
  else .ok v

/-- Lines 40-56: the body validation of a /reset-password request:
    validate_new_password, then passwords_match (confirm must equal
    new_password).  Pydantic collects all field errors; the model
    short-circuits at the first, which is enough for the claims (a
    request is valid iff this returns ok). -/
def validateResetRequest (new_password confirm_password : String) :
    Except String Unit :=
  match validate_new_password new_password with
  | .error e => .error e
  | .ok _ =>
      if confirm_password ≠ new_password then .error "Passwords do not match"
      else .ok ()

/-- A FastAPI HTTPException(status_code, detail). -/
structure HttpError where
  status : Nat
  detail : String
deriving DecidableEq

/-- One entry of users_db (lines 67-78 and 672-709).  The medical and
    preference sub-payloads that no handler reads back are carried only
    through the fields the claims observe (height, weight, bmi); the
    remaining sub-payload entries are opaque to this core. -/
structure Account where
  id : String
  email : String
  name : String
  password_hash : List Char
  avatar : Option String
  created_at : Int
  last_login : Option Int
  is_active : Bool
  height : Option ℚ := none
  weight : Option ℚ := none
  bmi : Option ℚ := none
deriving DecidableEq

/-- One entry of sessions_db (lines 142-148). -/
structure Session where
  user_id : String
  email : String
  created_at : Int
  expires_at : Int
  remember : Bool
deriving DecidableEq

/-- One entry of reset_tokens_db (lines 217-221). -/
structure ResetTokenData where
  email : String
  created_at : Int
  expires_at : Int
deriving DecidableEq

/-- The successful LoginResponse fields the claims observe. -/
structure LoginOk where
  message : String
  redirect_url : String
  token : String
deriving DecidableEq

/-- The /auth/status response body (lines 301, 310-314). -/
inductive StatusResp
  | anon : StatusResp
  | authed : String → String → StatusResp
deriving DecidableEq

/-- The UserProfile response model (lines 58-64, 285-292). -/
structure UserProfile where
  id : String
  email : String
  name : String
  avatar : Option String
  created_at : Int
  last_login : Option Int
deriving DecidableEq

/-- Lines 106-187, login.  The three clock readings are, in source
    order: tExpiry (line 138, basis of the expiry computation), tCreate
    (line 145, the session's created_at) and tLast (line 151, the new
    last_login).  The randomly generated session token is a parameter.
    Failure branches leave both stores unchanged; the cookie side effect
    is outside the model. -/
def login (kdf : List Char → List Char → List Char)
    (legacy : List Char → List Char)
    (users : List (String × Account)) (sessions : List (String × Session))
    (email password : String) (remember : Bool)
    (tExpiry tCreate tLast : Int) (token : String) :
    Except HttpError LoginOk × List (String × Account) × List (String × Session) :=
  match lookup users (pyLower email) with
  | none => (.error ⟨401, "Invalid email or password"⟩, users, sessions)
  | some user =>
      if verify_password kdf legacy password.data user.password_hash = false then
        (.error ⟨401, "Invalid email or password"⟩, users, sessions)
      else if user.is_active = false then
        (.error ⟨401, "Account is deactivated. Please contact support."⟩,
          users, sessions)
      else
        let expiry : Int := tExpiry + (if remember then (30 : Int) else 1) * 86400
        let sessions2 :=
          dset sessions token ⟨user.id, user.email, tCreate, expiry, remember⟩
        let users2 :=
          dset users (pyLower email) { user with last_login := some tLast }
        (.ok ⟨"Login successful", "/dashboard", token⟩, users2, sessions2)

/-- Lines 294-314, auth_status: missing or falsy (empty) cookie, or an
    unknown token, answers unauthenticated; a found-but-expired session
    (strictly now > expires_at) is deleted and answers unauthenticated;
    otherwise the session's identity is returned. -/
def auth_status (sessions : List (String × Session))
    (cookie : Option String) (now : Int) :
    StatusResp × List (String × Session) :=
  match cookie with
  | none => (.anon, sessions)
  | some t =>
      if t = "" then (.anon, sessions)
      else
        match lookup sessions t with
        | none => (.anon, sessions)
        | some s =>
            if now > s.expires_at then (.anon, dremove sessions t)
            else (.authed s.user_id s.email, sessions)

/-- Lines 264-292, get_current_user: 401 when the cookie is missing,
    falsy or unknown; a found-but-expired session (now > expires_at) is
    deleted and answers 401 "Session expired"; then the account is read
    by the session's email (404 if gone) and its public profile is
    returned. -/
def get_current_user (users : List (String × Account))
    (sessions : List (String × Session)) (cookie : Option String) (now : Int) :
    Except HttpError UserProfile × List (String × Session) :=
  match cookie with
  | none => (.error ⟨401, "Not authenticated"⟩, sessions)
  | some t =>
      if t = "" then (.error ⟨401, "Not authenticated"⟩, sessions)
      else
        match lookup sessions t with
        | none => (.error ⟨401, "Not authenticated"⟩, sessions)
        | some s =>
            if now > s.expires_at then
              (.error ⟨401, "Session expired"⟩, dremove sessions t)
            else
              match lookup users s.email with
              | none => (.error ⟨404, "User not found"⟩, sessions)
              | some u =>
                  (.ok ⟨u.id, u.email, u.name, u.avatar, u.created_at,
                      u.last_login⟩, sessions)

/-- Lines 232-262 plus the request-body validation of lines 35-56,
    reset_password: validate the body, look the token up (absent yields
    the uniform invalid-or-expired 400), delete-and-fail when strictly
    past expires_at, otherwise rewrite the digest of the target account
    when it exists (silently skip when it does not), delete the token,
    and report success.  `salt` is the fresh random salt drawn inside
    hash_password; `now` is the single utcnow() reading of line 244. -/
def reset_password (kdf : List Char → List Char → List Char)
    (salt : List Char) (users : List (String × Account))
    (rtokens : List (String × ResetTokenData))
    (token new_password confirm_password : String) (now : Int) :
    Except HttpError String × List (String × Account) ×
      List (String × ResetTokenData) :=
  match validateResetRequest new_password confirm_password with
  | .error e => (.error ⟨422, e⟩, users, rtokens)
  | .ok _ =>
      match lookup rtokens token with
      | none => (.error ⟨400, "Invalid or expired reset token"⟩, users, rtokens)
      | some td =>
          if now > td.expires_at then
            (.error ⟨400, "Reset token has expired"⟩, users, dremove rtokens token)
          else
            let users2 :=
              match lookup users td.email with
              | none => users
              | some u =>
                  dset users td.email
                    { u with password_hash :=
                        hash_password kdf salt new_password.data }
            (.ok "Password has been reset successfully", users2,
              dremove rtokens token)

/-- Python round(x, 1) on exact values: round half to even at the first
    decimal. -/
def roundHalfEven (x : ℚ) : ℤ :=
  let n := ⌊x⌋
  if x - (n : ℚ) < 1 / 2 then n
  else if (1 : ℚ) / 2 < x - (n : ℚ) then n + 1
  else if n % 2 = 0 then n else n + 1

/-- Python round(x, 1). -/
def pyRound1 (x : ℚ) : ℚ :=
  ((roundHalfEven (10 * x) : ℤ) : ℚ) / 10

/-- Lines 665-669 of register_user: bmi = None; if request.height and
    request.weight: bmi = round(weight / (height/100)**2, 1).  Python
    truthiness: None and 0 are falsy, so the computation happens exactly
    when both operands are present and nonzero. -/
def computeBMI : Option ℚ → Option ℚ → Option ℚ
  | some h, some w =>
      if h ≠ 0 ∧ w ≠ 0 then some (pyRound1 (w / (h / 100) ^ 2)) else none
  | _, _ => none

/-- The fields of a (Pydantic-validated) RegistrationRequest that the
    register_user handler logic reads; the remaining medical and
    preference fields are opaque payload never read back by the
    modelled handlers. -/
structure RegistrationRequest where
  full_name : String
  email : String
  password : String
  phone : Option String := none
  date_of_birth : String := ""
  gender : String := ""
  height : Option ℚ := none
  weight : Option ℚ := none
  accept_terms : Bool := true
deriving DecidableEq

/-- Lines 647-750, register_user: duplicate check on the lowercased
    email, digest the password, derive the BMI, store the account keyed
    by the lowercased email, and auto-login with a 1-day session.  The
    clock readings in source order: tAccount (line 681, account
    created_at), tExpiry (line 716, basis of the session expiry) and
    tSession (line 721, session created_at).  user_id and token are the
    generated identifiers. -/
def register_user (kdf : List Char → List Char → List Char)
    (salt : List Char) (users : List (String × Account))
    (sessions : List (String × Session)) (req : RegistrationRequest)
    (user_id token : String) (tAccount tExpiry tSession : Int) :
    Except HttpError String × List (String × Account) ×
      List (String × Session) :=
  if containsKey users (pyLower req.email) then
    (.error ⟨400, "An account with this email already exists"⟩, users, sessions)
  else
    let account : Account :=
      { id := user_id, email := pyLower req.email, name := req.full_name,
        password_hash := hash_password kdf salt req.password.data,
        avatar := none, created_at := tAccount, last_login := none,
        is_active := true, height := req.height, weight := req.weight,
        bmi := computeBMI req.height req.weight }
    let users2 := dset users (pyLower req.email) account
    let sessions2 :=
      dset sessions token
        ⟨user_id, pyLower req.email, tSession, tExpiry + 86400, false⟩
    (.ok user_id, users2, sessions2)

/-- One entry of registration_sessions (lines 644-645, 768-774): the
    per-step payloads are opaque structured values. -/
structure RegWorkflow where
  created_at : Int
  updated_at : Int
  step1 : Option String := none
  step2 : Option String := none
  step3 : Option String := none
deriving DecidableEq

/-- Lines 788-801, save_step2: requires a truthy cookie naming an
    existing workflow entry (no expiry check); merges the step-2 payload
    and refreshes updated_at. -/
def save_step2 (store : List (String × RegWorkflow))
    (cookie : Option String) (payload : String) (now : Int) :
    Except HttpError String × List (String × RegWorkflow) :=
  match cookie with
  | none => (.error ⟨400, "Registration session not found"⟩, store)
  | some sid =>
      if sid = "" then (.error ⟨400, "Registration session not found"⟩, store)
      else
        match lookup store sid with
        | none => (.error ⟨400, "Registration session not found"⟩, store)
        | some w =>
            (.ok "Step 2 saved successfully",
              dset store sid { w with step2 := some payload, updated_at := now })

/-- Lines 803-816, save_step3: same shape as save_step2 for the step-3
    payload; again no expiry check. -/
def save_step3 (store : List (String × RegWorkflow))
    (cookie : Option String) (payload : String) (now : Int) :
    Except HttpError String × List (String × RegWorkflow) :=
  match cookie with
  | none => (.error ⟨400, "Registration session not found"⟩, store)
  | some sid =>
      if sid = "" then (.error ⟨400, "Registration session not found"⟩, store)
      else
        match lookup store sid with
        | none => (.error ⟨400, "Registration session not found"⟩, store)
        | some w =>
            (.ok "Step 3 saved successfully",
              dset store sid { w with step3 := some payload, updated_at := now })

/-- Lines 818-833, get_registration_session: absent or falsy cookie, or
    unknown token, yields no data; an entry older than 1 hour (strictly
    now - created_at > 3600) is purged and yields no data; otherwise the
    stored state is returned. -/
def get_registration_session (store : List (String × RegWorkflow))
    (cookie : Option String) (now : Int) :
    Option RegWorkflow × List (String × RegWorkflow) :=
  match cookie with
  | none => (none, store)
  | some sid =>
      if sid = "" then (none, store)
      else
        match lookup store sid with
        | none => (none, store)
        | some w =>
            if now - w.created_at > 3600 then (none, dremove store sid)
            else (some w, store)

/- Concrete fixtures used by witnesses and counterexamples.  idKdf is
   an injective stand-in for the key-derivation function; the accounts
   carry the salted digest "s:pw" so that idKdf validates password "pw". -/

def idKdf : List Char → List Char → List Char := fun _ p => p

def idLegacy : List Char → List Char := fun p => p

def acctInactive : Account :=
  { id := "u1", email := "a@b.c", name := "n",
    password_hash := ['s', ':', 'p', 'w'], avatar := none, created_at := 0,
    last_login := none, is_active := false }

def acctActive : Account :=
  { id := "u1", email := "e@x", name := "n",
    password_hash := ['s', ':', 'p', 'w'], avatar := none, created_at := 0,
    last_login := none, is_active := true }

def reqUpper : RegistrationRequest :=
  { full_name := "Test User", email := "Test@X.com", password := "Passw0rd." }

def reqLower : RegistrationRequest :=
  { full_name := "Test User", email := "test@x.com", password := "Passw0rd." }

def reqBMI : RegistrationRequest :=
  { full_name := "Test User", email := "t@x.com", password := "Passw0rd.",
    height := some 180, weight := some 75 }

/- Theorems.  First the dictionary and hashing lemmas shared by the
   claim theorems. -/

theorem lookup_dset_self {α : Type} (m : List (String × α)) (k : String) (v : α) :
    lookup (dset m k v) k = some v := by
  induction m with
  | nil => simp [dset, lookup]
  | cons p rest ih =>
      obtain ⟨k1, v1⟩ := p
      by_cases h : k1 = k
      · simp [dset, h, lookup]
      · simp [dset, h, lookup, ih]

theorem lookup_dremove_self {α : Type} (m : List (String × α)) (k : String) :
    lookup (dremove m k) k = none := by
  induction m with
  | nil => rfl
  | cons p rest ih =>
      obtain ⟨k1, v1⟩ := p
      by_cases h : k1 = k
      · simp [dremove, h, ih]
      · simp [dremove, h, lookup, ih]

theorem hasColon_append_colon (salt r : List Char) :
    hasColon (salt ++ ':' :: r) = true := by
  induction salt with
  | nil => simp [hasColon]
  | cons c cs ih => simp [hasColon, ih]

theorem splitFirstColon_append (salt r : List Char)
    (h : hasColon salt = false) :
    splitFirstColon (salt ++ ':' :: r) = some (salt, r) := by
  induction salt with
  | nil => simp [splitFirstColon]
  | cons c cs ih =>
      rw [hasColon] at h
      by_cases hc : c = ':'
      · rw [if_pos hc] at h
        exact absurd h (by simp)
      · rw [if_neg hc] at h
        simp [splitFirstColon, hc, ih h]

/-- C8: for every password p, verify(p, hash(p)) returns true through
    the salted salt:hex digest format, and for p1 ≠ p2,
    verify(p1, hash(p2)) returns false, with the key-derivation
    function modelled as a deterministic function injective in the
    password for each salt; the salt is colon-free, as the source's
    hex-encoded salts are. -/
theorem password_hash_verify_roundtrip
    (kdf : List Char → List Char → List Char) (legacy : List Char → List Char)
    (salt p p1 p2 : List Char)
    (hinj : ∀ s a b, kdf s a = kdf s b → a = b)
    (hsalt : hasColon salt = false)
    (hne : p1 ≠ p2) :
    verify_password kdf legacy p (hash_password kdf salt p) = true ∧
    verify_password kdf legacy p1 (hash_password kdf salt p2) = false := by
  constructor
  · rw [verify_password, hash_password, hasColon_append_colon]
    simp [splitFirstColon_append salt (kdf salt p) hsalt]
  · rw [verify_password, hash_password, hasColon_append_colon]
    simp only [Bool.true_eq_false, if_false, splitFirstColon_append salt (kdf salt p2) hsalt]
    exact beq_eq_false_iff_ne.mpr (fun hEq => hne (hinj salt p1 p2 hEq))

/-- C8 witness: the round-trip and the mismatch rejection at the
    concrete injective kdf, salt "a", passwords "x" and "y". -/
theorem password_hash_verify_roundtrip_witness :
    verify_password idKdf idLegacy ['x'] (hash_password idKdf ['a'] ['x']) = true ∧
    verify_password idKdf idLegacy ['x'] (hash_password idKdf ['a'] ['y']) = false :=
  password_hash_verify_roundtrip idKdf idLegacy ['a'] ['x'] ['x'] ['y']
    (fun _ _ _ h => h) (by decide) (by decide)

/-- C1 counterexample: an inactive account whose password matches gets
    401 "Account is deactivated. Please contact support.", while an
    absent account gets 401 "Invalid email or password" — the error
    payloads of the three login failure modes are not all identical. -/
theorem login_inactive_payload_differs :
    (login idKdf idLegacy [("a@b.c", acctInactive)] [] "a@b.c" "pw" false
        0 0 0 "t").1
      = .error ⟨401, "Account is deactivated. Please contact support."⟩ ∧
    (login idKdf idLegacy [("a@b.c", acctInactive)] [] "nobody@b.c" "pw" false
        0 0 0 "t").1
      = .error ⟨401, "Invalid email or password"⟩ ∧
    ("Account is deactivated. Please contact support." : String)
      ≠ "Invalid email or password" :=
  ⟨rfl, rfl, by decide⟩

/-- C1 amended: whenever the account is absent, the password digest does
    not match, or the account is inactive, login fails with status 401
    and no session is created; the absent and digest-mismatch cases
    share the identical payload "Invalid email or password", while the
    inactive case returns a distinct detail message. -/
theorem login_failures_all_401_no_session
    (kdf : List Char → List Char → List Char) (legacy : List Char → List Char)
    (users : List (String × Account)) (sessions : List (String × Session))
    (email password : String) (remember : Bool) (t1 t2 t3 : Int) (token : String)
    (hfail : lookup users (pyLower email) = none ∨
      ∃ u, lookup users (pyLower email) = some u ∧
        (verify_password kdf legacy password.data u.password_hash = false ∨
          u.is_active = false)) :
    (∃ d, (login kdf legacy users sessions email password remember
        t1 t2 t3 token).1 = .error ⟨401, d⟩) ∧
    (login kdf legacy users sessions email password remember
        t1 t2 t3 token).2.2 = sessions ∧
    (lookup users (pyLower email) = none →
      (login kdf legacy users sessions email password remember
          t1 t2 t3 token).1 = .error ⟨401, "Invalid email or password"⟩) ∧
    (∀ u, lookup users (pyLower email) = some u →
      verify_password kdf legacy password.data u.password_hash = false →
      (login kdf legacy users sessions email password remember
          t1 t2 t3 token).1 = .error ⟨401, "Invalid email or password"⟩) := by
  rcases hfail with habs | ⟨u, hu, hcase⟩
  · refine ⟨⟨"Invalid email or password", ?_⟩, ?_, ?_, ?_⟩
    · simp [login, habs]
    · simp [login, habs]
    · intro _; simp [login, habs]
    · intro v hv; rw [habs] at hv; exact absurd hv (by simp)
  · cases hv : verify_password kdf legacy password.data u.password_hash with
    | false =>
        refine ⟨⟨"Invalid email or password", ?_⟩, ?_, ?_, ?_⟩
        · simp [login, hu, hv]
        · simp [login, hu, hv]
        · intro habs; rw [habs] at hu; exact absurd hu (by simp)
        · intro v hv2 hver
          rw [hu] at hv2
          cases hv2
          simp [login, hu, hver]
    | true =>
        have hact : u.is_active = false := by
          rcases hcase with hc | hc
          · rw [hv] at hc; exact absurd hc (by simp)
          · exact hc
        refine ⟨⟨"Account is deactivated. Please contact support.", ?_⟩, ?_, ?_, ?_⟩
        · simp [login, hu, hv, hact]
        · simp [login, hu, hv, hact]
        · intro habs; rw [habs] at hu; exact absurd hu (by simp)
        · intro v hv2 hver
          rw [hu] at hv2
          cases hv2
          rw [hver] at hv
          exact absurd hv (by simp)

/-- C1 witness: the amended theorem applied to an absent account. -/
theorem login_failures_all_401_no_session_witness :
    (∃ d, (login idKdf idLegacy [] [] "nobody@x" "pw" false 0 0 0 "t").1
        = .error ⟨401, d⟩) ∧
    (login idKdf idLegacy [] [] "nobody@x" "pw" false 0 0 0 "t").2.2 = [] ∧
    (lookup ([] : List (String × Account)) (pyLower "nobody@x") = none →
      (login idKdf idLegacy [] [] "nobody@x" "pw" false 0 0 0 "t").1
        = .error ⟨401, "Invalid email or password"⟩) ∧
    (∀ u : Account, lookup [] (pyLower "nobody@x") = some u →
      verify_password idKdf idLegacy ("pw" : String).data u.password_hash = false →
      (login idKdf idLegacy [] [] "nobody@x" "pw" false 0 0 0 "t").1
        = .error ⟨401, "Invalid email or password"⟩) :=
  login_failures_all_401_no_session idKdf idLegacy [] [] "nobody@x" "pw" false
    0 0 0 "t" (Or.inl rfl)

/-- C2 counterexample: at the exact boundary now = expires_at the
    source's strict check (now > expires_at) does not fire, so
    auth_status still answers authenticated and keeps the entry, even
    though now ≥ expires_at. -/
theorem session_resolve_at_exact_expiry_returned :
    (100 : Int) ≥ 100 ∧
    auth_status [("t", ⟨"u", "e", 0, 100, false⟩)] (some "t") 100
      = (.authed "u" "e", [("t", ⟨"u", "e", 0, 100, false⟩)]) :=
  ⟨by decide, rfl⟩

/-- C2 amended: for every session token whose stored expiry satisfies
    now > expires_at (strictly), resolving it via auth_status or
    get_current_user answers unauthenticated / 401 and removes the
    entry from the session store, so an immediate re-check of the same
    token also answers unauthenticated; a session strictly past its
    expiry is never returned. -/
theorem session_resolve_expired_purges
    (users : List (String × Account)) (sessions : List (String × Session))
    (t : String) (now : Int) (s : Session)
    (ht : t ≠ "") (hs : lookup sessions t = some s)
    (hexp : now > s.expires_at) :
    auth_status sessions (some t) now = (.anon, dremove sessions t) ∧
    lookup (dremove sessions t) t = none ∧
    (∀ now2 : Int, auth_status (dremove sessions t) (some t) now2
      = (.anon, dremove sessions t)) ∧
    (get_current_user users sessions (some t) now).1
      = .error ⟨401, "Session expired"⟩ ∧
    (get_current_user users sessions (some t) now).2 = dremove sessions t := by
  have hrm := lookup_dremove_self sessions t
  refine ⟨?_, hrm, ?_, ?_, ?_⟩
  · simp [auth_status, ht, hs, hexp]
  · intro now2; simp [auth_status, ht, hrm]
  · simp [get_current_user, ht, hs, hexp]
  · simp [get_current_user, ht, hs, hexp]

/-- C2 witness: a session expired one second ago is purged by
    auth_status and get_current_user, and the re-check also answers
    unauthenticated. -/
theorem session_resolve_expired_purges_witness :
    auth_status [("t", ⟨"u", "e", 0, 100, false⟩)] (some "t") 101
      = (.anon, dremove [("t", ⟨"u", "e", 0, 100, false⟩)] "t") ∧
    lookup (dremove [("t", (⟨"u", "e", 0, 100, false⟩ : Session))] "t") "t" = none ∧
    (∀ now2 : Int,
      auth_status (dremove [("t", ⟨"u", "e", 0, 100, false⟩)] "t") (some "t") now2
        = (.anon, dremove [("t", ⟨"u", "e", 0, 100, false⟩)] "t")) ∧
    (get_current_user [] [("t", ⟨"u", "e", 0, 100, false⟩)] (some "t") 101).1
      = .error ⟨401, "Session expired"⟩ ∧
    (get_current_user [] [("t", ⟨"u", "e", 0, 100, false⟩)] (some "t") 101).2
      = dremove [("t", ⟨"u", "e", 0, 100, false⟩)] "t" :=
  session_resolve_expired_purges [] [("t", ⟨"u", "e", 0, 100, false⟩)] "t" 101
    ⟨"u", "e", 0, 100, false⟩ (by decide) rfl (by decide)

/-- C3 counterexample: login computes the expiry from the utcnow()
    reading of line 138 and the session's created_at from the separate
    utcnow() reading of line 145; when the clock advances by one second
    between the two calls (readings 0 and 1), the stored session has
    expires_at = 86400 but created_at + 1 day = 86401, so the "exactly"
    equation fails. -/
theorem login_session_expiry_clock_drift :
    lookup (login idKdf idLegacy [("e@x", acctActive)] [] "e@x" "pw" false
        0 1 2 "t").2.2 "t"
      = some ⟨"u1", "e@x", 1, 86400, false⟩ ∧
    (86400 : Int) ≠ 1 + (if false then (30 : Int) else 1) * 86400 :=
  ⟨rfl, by decide⟩

/-- C3 amended: every session stored by a successful login has
    expires_at = tExpiry + (30 days if remember else 1 day), where
    tExpiry is the clock reading used for the expiry computation
    (line 138) and created_at is the later reading of line 145; when the
    two readings coincide, expires_at = created_at + (30d if remember
    else 1d) exactly. -/
theorem login_session_expiry_window
    (kdf : List Char → List Char → List Char) (legacy : List Char → List Char)
    (users : List (String × Account)) (sessions : List (String × Session))
    (email password : String) (remember : Bool) (t1 t2 t3 : Int)
    (token : String) (r : LoginOk)
    (hok : (login kdf legacy users sessions email password remember
        t1 t2 t3 token).1 = .ok r) :
    ∃ s : Session,
      lookup (login kdf legacy users sessions email password remember
          t1 t2 t3 token).2.2 token = some s ∧
      s.created_at = t2 ∧
      s.expires_at = t1 + (if remember then (30 : Int) else 1) * 86400 ∧
      (t1 = t2 →
        s.expires_at = s.created_at + (if remember then (30 : Int) else 1) * 86400) := by
  cases hl : lookup users (pyLower email) with
  | none =>
      rw [login, hl] at hok
      exact absurd hok (by simp)
  | some u =>
      cases hv : verify_password kdf legacy password.data u.password_hash with
      | false =>
          rw [login, hl] at hok
          simp [hv] at hok
      | true =>
          cases ha : u.is_active with
          | false =>
              rw [login, hl] at hok
              simp [hv, ha] at hok
          | true =>
              refine ⟨⟨u.id, u.email, t2,
                t1 + (if remember then (30 : Int) else 1) * 86400, remember⟩,
                ?_, rfl, rfl, ?_⟩
              · rw [login, hl]
                simp only [hv, Bool.true_eq_false, if_false, ha]
                exact lookup_dset_self _ _ _
              · intro hclock
                simp [hclock]

/-- C3 witness: a remember=true login whose clock drifts from reading 5
    (line 138) to reading 7 (line 145) stores a session with
    created_at = 7 and expiry exactly 5 + 30 days. -/
theorem login_session_expiry_window_witness :
    ∃ s : Session,
      lookup (login idKdf idLegacy [("e@x", acctActive)] [] "e@x" "pw" true
          5 7 8 "t").2.2 "t" = some s ∧
      s.created_at = 7 ∧
      s.expires_at = 5 + (if true then (30 : Int) else 1) * 86400 ∧
      ((5 : Int) = 7 →
        s.expires_at = s.created_at + (if true then (30 : Int) else 1) * 86400) :=
  login_session_expiry_window idKdf idLegacy [("e@x", acctActive)] [] "e@x" "pw"
    true 5 7 8 "t" ⟨"Login successful", "/dashboard", "t"⟩ rfl

/-- C4: a reset token is strictly single-use — a successful
    reset_password consumption deletes the entry from the reset token
    store, so a second consumption attempt with the same token (by any
    later well-formed request) fails with the uniform 400
    "Invalid or expired reset token", and detecting expiry likewise
    deletes the entry while failing with 400 "Reset token has
    expired". -/
theorem reset_token_single_use
    (kdf : List Char → List Char → List Char) (salt : List Char)
    (users : List (String × Account))
    (rtokens : List (String × ResetTokenData))
    (token newp confp : String) (now : Int) (td : ResetTokenData)
    (hv : validateResetRequest newp confp = .ok ())
    (htd : lookup rtokens token = some td) :
    (¬ now > td.expires_at →
      (reset_password kdf salt users rtokens token newp confp now).1
        = .ok "Password has been reset successfully" ∧
      lookup (reset_password kdf salt users rtokens token newp confp now).2.2
        token = none ∧
      (∀ (users2 : List (String × Account)) (newp2 confp2 : String) (now2 : Int),
        validateResetRequest newp2 confp2 = .ok () →
        reset_password kdf salt users2
            (reset_password kdf salt users rtokens token newp confp now).2.2
            token newp2 confp2 now2
          = (.error ⟨400, "Invalid or expired reset token"⟩, users2,
              (reset_password kdf salt users rtokens token newp confp now).2.2))) ∧
    (now > td.expires_at →
      (reset_password kdf salt users rtokens token newp confp now).1
        = .error ⟨400, "Reset token has expired"⟩ ∧
      lookup (reset_password kdf salt users rtokens token newp confp now).2.2
        token = none) := by
  constructor
  · intro hlive
    have hres : (reset_password kdf salt users rtokens token newp confp now).2.2
        = dremove rtokens token := by
      simp [reset_password, hv, htd, hlive]
    refine ⟨?_, ?_, ?_⟩
    · simp [reset_password, hv, htd, hlive]
    · rw [hres]; exact lookup_dremove_self rtokens token
    · intro users2 newp2 confp2 now2 hv2
      rw [hres]
      simp [reset_password, hv2, lookup_dremove_self rtokens token]
  · intro hdead
    refine ⟨?_, ?_⟩
    · simp [reset_password, hv, htd, hdead]
    · simp [reset_password, hv, htd, hdead, lookup_dremove_self rtokens token]

/-- C4 witness: a live token consumed at now = 10 succeeds once, and an
    identical second attempt fails with the invalid-or-expired error. -/
theorem reset_token_single_use_witness :
    (¬ (10 : Int) > (3600 : Int) →
      (reset_password idKdf ['a'] [] [("tk", ⟨"e@x", 0, 3600⟩)] "tk"
          "Abc123" "Abc123" 10).1
        = .ok "Password has been reset successfully" ∧
      lookup (reset_password idKdf ['a'] [] [("tk", ⟨"e@x", 0, 3600⟩)] "tk"
          "Abc123" "Abc123" 10).2.2 "tk" = none ∧
      (∀ (users2 : List (String × Account)) (newp2 confp2 : String) (now2 : Int),
        validateResetRequest newp2 confp2 = .ok () →
        reset_password idKdf ['a'] users2
            (reset_password idKdf ['a'] [] [("tk", ⟨"e@x", 0, 3600⟩)] "tk"
              "Abc123" "Abc123" 10).2.2
            "tk" newp2 confp2 now2
          = (.error ⟨400, "Invalid or expired reset token"⟩, users2,
              (reset_password idKdf ['a'] [] [("tk", ⟨"e@x", 0, 3600⟩)] "tk"
                "Abc123" "Abc123" 10).2.2))) ∧
    ((10 : Int) > (3600 : Int) →
      (reset_password idKdf ['a'] [] [("tk", ⟨"e@x", 0, 3600⟩)] "tk"
          "Abc123" "Abc123" 10).1
        = .error ⟨400, "Reset token has expired"⟩ ∧
      lookup (reset_password idKdf ['a'] [] [("tk", ⟨"e@x", 0, 3600⟩)] "tk"
          "Abc123" "Abc123" 10).2.2 "tk" = none) :=
  reset_token_single_use idKdf ['a'] [] [("tk", ⟨"e@x", 0, 3600⟩)] "tk"
    "Abc123" "Abc123" 10 ⟨"e@x", 0, 3600⟩ rfl rfl

/-- C9: a valid, unexpired reset token whose target email has no entry
    in the credential store still resets successfully — the reset token
    is deleted, no account digest changes, and the call reports
    success. -/
theorem reset_password_missing_account_success
    (kdf : List Char → List Char → List Char) (salt : List Char)
    (users : List (String × Account))
    (rtokens : List (String × ResetTokenData))
    (token newp confp : String) (now : Int) (td : ResetTokenData)
    (hv : validateResetRequest newp confp = .ok ())
    (htd : lookup rtokens token = some td)
    (hlive : ¬ now > td.expires_at)
    (hmiss : lookup users td.email = none) :
    (reset_password kdf salt users rtokens token newp confp now).1
      = .ok "Password has been reset successfully" ∧
    (reset_password kdf salt users rtokens token newp confp now).2.1 = users ∧
    lookup (reset_password kdf salt users rtokens token newp confp now).2.2
      token = none := by
  refine ⟨?_, ?_, ?_⟩
  · simp [reset_password, hv, htd, hlive]
  · simp [reset_password, hv, htd, hlive, hmiss]
  · simp [reset_password, hv, htd, hlive, lookup_dremove_self rtokens token]

/-- C9 witness: a live token targeting e-mail "gone@x" with an empty
    credential store. -/
theorem reset_password_missing_account_success_witness :
    (reset_password idKdf ['a'] [] [("tk", ⟨"gone@x", 0, 3600⟩)] "tk"
        "Abc123" "Abc123" 10).1
      = .ok "Password has been reset successfully" ∧
    (reset_password idKdf ['a'] [] [("tk", ⟨"gone@x", 0, 3600⟩)] "tk"
        "Abc123" "Abc123" 10).2.1 = [] ∧
    lookup (reset_password idKdf ['a'] [] [("tk", ⟨"gone@x", 0, 3600⟩)] "tk"
        "Abc123" "Abc123" 10).2.2 "tk" = none :=
  reset_password_missing_account_success idKdf ['a'] [] [("tk", ⟨"gone@x", 0, 3600⟩)]
    "tk" "Abc123" "Abc123" 10 ⟨"gone@x", 0, 3600⟩ rfl rfl (by decide) rfl

/-- C5 counterexample: the reset-password validator accepts "Abc123",
    a 6-character password with no symbol, which the claimed policy
    (at least 8 characters and a punctuation symbol) would reject. -/
theorem reset_password_policy_accepts_weak :
    validate_new_password "Abc123" = .ok "Abc123" ∧
    ("Abc123" : String).length < 8 :=
  ⟨rfl, by decide⟩

/-- C5 amended: reset_password accepts the new password exactly when it
    has at least 6 characters and contains at least one uppercase
    letter, one lowercase letter and one digit (no symbol requirement,
    unlike the registration validator); any password violating this
    policy makes the request fail validation before any store is
    touched. -/
theorem reset_password_validation_policy (p : String) :
    (validate_new_password p = .ok p ↔
      (6 ≤ p.length ∧ p.data.any Char.isUpper = true ∧
        p.data.any Char.isLower = true ∧ p.data.any Char.isDigit = true)) ∧
    (∀ (kdf : List Char → List Char → List Char) (salt : List Char)
        (users : List (String × Account))
        (rtokens : List (String × ResetTokenData))
        (token confp : String) (now : Int) (e : String),
      validateResetRequest p confp = .error e →
      reset_password kdf salt users rtokens token p confp now
        = (.error ⟨422, e⟩, users, rtokens)) := by
  constructor
  · rw [validate_new_password]
    by_cases h1 : p.length < 6
    · have hl : ¬ 6 ≤ p.length := by omega
      simp [h1, hl]
    · have hl : 6 ≤ p.length := by omega
      rw [if_neg h1]
      cases h2 : p.data.any Char.isUpper with
      | false => simp [h2]
      | true =>
          rw [if_neg (by simp [h2])]
          cases h3 : p.data.any Char.isLower with
          | false => simp [h3]
          | true =>
              rw [if_neg (by simp [h3])]
              cases h4 : p.data.any Char.isDigit with
              | false => simp [h4]
              | true => simp [h4, hl]
  · intro kdf salt users rtokens token confp now e hve
    simp [reset_password, hve]

/-- C5 witness: the amended policy applied at "Abc123" (accepted) and at
    the too-short "abc" (rejected before the stores are touched). -/
theorem reset_password_validation_policy_witness :
    ((validate_new_password "Abc123" = .ok "Abc123" ↔
      (6 ≤ ("Abc123" : String).length ∧
        ("Abc123" : String).data.any Char.isUpper = true ∧
        ("Abc123" : String).data.any Char.isLower = true ∧
        ("Abc123" : String).data.any Char.isDigit = true)) ∧
      reset_password idKdf ['a'] [] [("tk", ⟨"e@x", 0, 3600⟩)] "tk" "abc" "abc" 0
        = (.error ⟨422, "Password must be at least 6 characters long"⟩, [],
            [("tk", ⟨"e@x", 0, 3600⟩)])) :=
  ⟨(reset_password_validation_policy "Abc123").1,
    (reset_password_validation_policy "abc").2 idKdf ['a'] []
      [("tk", ⟨"e@x", 0, 3600⟩)] "tk" "abc" 0
      "Password must be at least 6 characters long" rfl⟩

/-- C6: a single-shot registration stores bmi = computeBMI height
    weight; when both height and weight are present (and in the
    validator-guaranteed ranges, hence nonzero) this equals
    weight / (height/100)^2 rounded to one decimal, and when either is
    absent the stored BMI is null. -/
theorem register_bmi_computed
    (kdf : List Char → List Char → List Char) (salt : List Char)
    (users : List (String × Account)) (sessions : List (String × Session))
    (req : RegistrationRequest) (uid token : String) (t1 t2 t3 : Int)
    (hfree : containsKey users (pyLower req.email) = false) :
    (∃ a : Account,
      lookup (register_user kdf salt users sessions req uid token t1 t2 t3).2.1
          (pyLower req.email) = some a ∧
      a.bmi = computeBMI req.height req.weight) ∧
    (∀ h w : ℚ, req.height = some h → req.weight = some w →
      100 ≤ h → 30 ≤ w →
      computeBMI req.height req.weight
        = some (pyRound1 (w / (h / 100) ^ 2))) ∧
    ((req.height = none ∨ req.weight = none) →
      computeBMI req.height req.weight = none) := by
  refine ⟨?_, ?_, ?_⟩
  · refine ⟨{ id := uid, email := pyLower req.email, name := req.full_name,
              password_hash := hash_password kdf salt req.password.data,
              avatar := none, created_at := t1, last_login := none,
              is_active := true, height := req.height, weight := req.weight,
              bmi := computeBMI req.height req.weight }, ?_, rfl⟩
    simp only [register_user, hfree, Bool.false_eq_true, if_false]
    exact lookup_dset_self _ _ _
  · intro h w hh hw h100 h30
    have hh0 : h ≠ 0 := by
      intro h0; rw [h0] at h100; norm_num at h100
    have hw0 : w ≠ 0 := by
      intro w0; rw [w0] at h30; norm_num at h30
    rw [hh, hw, computeBMI, if_pos ⟨hh0, hw0⟩]
  · intro hnone
    rcases hnone with hh | hw
    · rw [hh]; cases req.weight <;> rfl
    · rw [hw]; cases req.height <;> rfl

/-- C6 witness: registering with height = 180 cm and weight = 75 kg
    stores BMI 23.1 = 231/10, and the rounded value evaluates to
    exactly 75 / 1.8^2 rounded to one decimal. -/
theorem register_bmi_computed_witness :
    ((∃ a : Account,
      lookup (register_user idKdf ['a'] [] [] reqBMI "u1" "t1" 0 0 0).2.1
          (pyLower reqBMI.email) = some a ∧
      a.bmi = computeBMI reqBMI.height reqBMI.weight) ∧
    (∀ h w : ℚ, reqBMI.height = some h → reqBMI.weight = some w →
      100 ≤ h → 30 ≤ w →
      computeBMI reqBMI.height reqBMI.weight
        = some (pyRound1 (w / (h / 100) ^ 2))) ∧
    ((reqBMI.height = none ∨ reqBMI.weight = none) →
      computeBMI reqBMI.height reqBMI.weight = none)) ∧
    computeBMI (some 180) (some 75) = some (231 / 10) :=
  ⟨register_bmi_computed idKdf ['a'] [] [] reqBMI "u1" "t1" 0 0 0 rfl,
    by rw [computeBMI]; norm_num [pyRound1, roundHalfEven]⟩

/-- C7: when two registration attempts carry emails equal after
    lowercase normalization, the second attempt fails with 400
    "An account with this email already exists" and leaves the
    credential store unchanged; the store is keyed by the lowercased
    email. -/
theorem register_duplicate_email_rejected
    (kdf : List Char → List Char → List Char) (salt : List Char)
    (users : List (String × Account))
    (sessions sessions2 : List (String × Session))
    (req1 req2 : RegistrationRequest) (uid1 tok1 uid2 tok2 : String)
    (t1 t2 t3 t4 t5 t6 : Int)
    (hok : (register_user kdf salt users sessions req1 uid1 tok1 t1 t2 t3).1
      = .ok uid1)
    (heq : pyLower req2.email = pyLower req1.email) :
    register_user kdf salt
        (register_user kdf salt users sessions req1 uid1 tok1 t1 t2 t3).2.1
        sessions2 req2 uid2 tok2 t4 t5 t6
      = (.error ⟨400, "An account with this email already exists"⟩,
          (register_user kdf salt users sessions req1 uid1 tok1 t1 t2 t3).2.1,
          sessions2) ∧
    (∃ a : Account,
      lookup (register_user kdf salt users sessions req1 uid1 tok1 t1 t2 t3).2.1
          (pyLower req1.email) = some a ∧
      a.email = pyLower req1.email) := by
  cases hc : containsKey users (pyLower req1.email) with
  | true =>
      rw [register_user, if_pos (by rw [hc])] at hok
      exact absurd hok (by simp)
  | false =>
      have husers : (register_user kdf salt users sessions req1 uid1 tok1
          t1 t2 t3).2.1 = dset users (pyLower req1.email)
            { id := uid1, email := pyLower req1.email, name := req1.full_name,
              password_hash := hash_password kdf salt req1.password.data,
              avatar := none, created_at := t1, last_login := none,
              is_active := true, height := req1.height, weight := req1.weight,
              bmi := computeBMI req1.height req1.weight } := by
        simp only [register_user, hc, Bool.false_eq_true, if_false]
      have hfound := lookup_dset_self users (pyLower req1.email)
        { id := uid1, email := pyLower req1.email, name := req1.full_name,
          password_hash := hash_password kdf salt req1.password.data,
          avatar := none, created_at := t1, last_login := none,
          is_active := true, height := req1.height, weight := req1.weight,
          bmi := computeBMI req1.height req1.weight }
      have hdup : containsKey
          (register_user kdf salt users sessions req1 uid1 tok1 t1 t2 t3).2.1
          (pyLower req2.email) = true := by
        rw [heq, husers, containsKey, hfound]
        rfl
      refine ⟨?_, ?_⟩
      · rw [register_user, if_pos (by rw [hdup])]
      · exact ⟨_, by rw [husers]; exact hfound, rfl⟩

/-- C7 witness: registering "Test@X.com" and then "test@x.com" into an
    empty store — the second attempt is rejected and the store keeps
    exactly the first account, keyed by "test@x.com". -/
theorem register_duplicate_email_rejected_witness :
    register_user idKdf ['a']
        (register_user idKdf ['a'] [] [] reqUpper "u1" "t1" 0 0 0).2.1
        [] reqLower "u2" "t2" 1 1 1
      = (.error ⟨400, "An account with this email already exists"⟩,
          (register_user idKdf ['a'] [] [] reqUpper "u1" "t1" 0 0 0).2.1,
          []) ∧
    (∃ a : Account,
      lookup (register_user idKdf ['a'] [] [] reqUpper "u1" "t1" 0 0 0).2.1
          (pyLower reqUpper.email) = some a ∧
      a.email = pyLower reqUpper.email) :=
  register_duplicate_email_rejected idKdf ['a'] [] [] [] reqUpper reqLower
    "u1" "t1" "u2" "t2" 0 0 0 1 1 1 rfl (by decide)

/-- C10: save_step2 and save_step3 perform no expiry check — for every
    workflow entry still present in the store they succeed and update
    it, even when more than 1 hour has passed since created_at — while
    get_registration_session enforces the 1-hour limit and purges the
    entry. -/
theorem workflow_steps_no_expiry_check
    (store : List (String × RegWorkflow)) (sid : String) (w : RegWorkflow)
    (p2 p3 : String) (now now2 now3 : Int)
    (hsid : sid ≠ "") (hw : lookup store sid = some w)
    (hold : now - w.created_at > 3600) :
    (save_step2 store (some sid) p2 now2).1 = .ok "Step 2 saved successfully" ∧
    lookup (save_step2 store (some sid) p2 now2).2 sid
      = some { w with step2 := some p2, updated_at := now2 } ∧
    (save_step3 store (some sid) p3 now3).1 = .ok "Step 3 saved successfully" ∧
    lookup (save_step3 store (some sid) p3 now3).2 sid
      = some { w with step3 := some p3, updated_at := now3 } ∧
    get_registration_session store (some sid) now = (none, dremove store sid) ∧
    lookup (dremove store sid) sid = none := by
  refine ⟨?_, ?_, ?_, ?_, ?_, lookup_dremove_self store sid⟩
  · simp [save_step2, hsid, hw]
  · simp only [save_step2, hsid, hw]
    exact lookup_dset_self _ _ _
  · simp [save_step3, hsid, hw]
  · simp only [save_step3, hsid, hw]
    exact lookup_dset_self _ _ _
  · simp [get_registration_session, hsid, hw, hold]

/-- C10 witness: an entry created at time 0 accepts step-2 and step-3
    payloads at times past the 1-hour mark, while reading it at
    now = 4000 (> 3600) purges it. -/
theorem workflow_steps_no_expiry_check_witness :
    (save_step2 [("s1", ⟨0, 0, none, none, none⟩)] (some "s1") "m" 5000).1
      = .ok "Step 2 saved successfully" ∧
    lookup (save_step2 [("s1", ⟨0, 0, none, none, none⟩)] (some "s1") "m" 5000).2
        "s1"
      = some { (⟨0, 0, none, none, none⟩ : RegWorkflow) with
               step2 := some "m", updated_at := 5000 } ∧
    (save_step3 [("s1", ⟨0, 0, none, none, none⟩)] (some "s1") "p" 6000).1
      = .ok "Step 3 saved successfully" ∧
    lookup (save_step3 [("s1", ⟨0, 0, none, none, none⟩)] (some "s1") "p" 6000).2
        "s1"
      = some { (⟨0, 0, none, none, none⟩ : RegWorkflow) with
               step3 := some "p", updated_at := 6000 } ∧
    get_registration_session [("s1", ⟨0, 0, none, none, none⟩)] (some "s1") 4000
      = (none, dremove [("s1", ⟨0, 0, none, none, none⟩)] "s1") ∧
    lookup (dremove [("s1", (⟨0, 0, none, none, none⟩ : RegWorkflow))] "s1") "s1"
      = none :=
  workflow_steps_no_expiry_check [("s1", ⟨0, 0, none, none, none⟩)] "s1"
    ⟨0, 0, none, none, none⟩ "m" "p" 4000 5000 6000 (by decide) rfl (by decide)

end HealthAuth
